import Mathlib

/-!
Shallow embedding of the filling-machine RL real-world testing loop.

Sources embedded: `real_world_tester.py` (control loop, session statistics,
termination classification), `config.py` (configuration constants),
`file_handler.py` (Excel report colouring), `tcp_client.py` (UDP collaborator,
interface only).

The modules `reward_calculator.py` and `real_data_processor.py` are imported by
`real_world_tester.py` but are not part of the sources here; the definitions
that depend on them are modelled from the specification and carry a
`Modelled from the spec:` doc comment.

Python numbers are embedded as `ℤ`/`ℚ` (floats as the exact decimal rationals
they are written as in the source); Python `None`/exception outcomes become
`Option`/`Except`.
-/

namespace FillingMachine

/- ### Configuration constants (config.py) -/

/-- config.py line 20: `DEFAULT_SAFE_WEIGHT_MIN = 74`. -/
def DEFAULT_SAFE_WEIGHT_MIN : ℤ := 74

/-- config.py line 21: `DEFAULT_SAFE_WEIGHT_MAX = 76`. -/
def DEFAULT_SAFE_WEIGHT_MAX : ℤ := 76

/-- config.py line 61: `DEFAULT_WEIGHT_QUANTIZATION_STEP = 10000`. -/
def DEFAULT_WEIGHT_QUANTIZATION_STEP : ℤ := 10000

/-- config.py line 24: `DEFAULT_OVERFLOW_PENALTY_CONSTANT = -370.0`. -/
def DEFAULT_OVERFLOW_PENALTY_CONSTANT : ℚ := -370

/-- config.py line 25: `DEFAULT_UNDERFLOW_PENALTY_CONSTANT = -100.0`. -/
def DEFAULT_UNDERFLOW_PENALTY_CONSTANT : ℚ := -100

/-- config.py line 39: `EXPLORATION_STEPS = [1, 2, 3, 4, 5]`. -/
def EXPLORATION_STEPS : List ℕ := [1, 2, 3, 4, 5]

/-- config.py line 40: `EXPLORATION_PROBABILITIES = [0.33, 0.27, 0.2, 0.13, 0.07]`. -/
def EXPLORATION_PROBABILITIES : List ℚ := [0.33, 0.27, 0.2, 0.13, 0.07]

/-- Lower end of the scaled tolerance band built in `RealWorldTester.__init__`
(real_world_tester.py lines 55-58): `DEFAULT_SAFE_WEIGHT_MIN * quantization_step`
with the default quantization step. -/
def realToleranceMin : ℤ := DEFAULT_SAFE_WEIGHT_MIN * DEFAULT_WEIGHT_QUANTIZATION_STEP

/-- Upper end of the scaled tolerance band built in `RealWorldTester.__init__`
(real_world_tester.py lines 55-58): `DEFAULT_SAFE_WEIGHT_MAX * quantization_step`. -/
def realToleranceMax : ℤ := DEFAULT_SAFE_WEIGHT_MAX * DEFAULT_WEIGHT_QUANTIZATION_STEP

/- ### Session statistics (real_world_tester.py) -/

/-- The `session_stats` dictionary initialised in `RealWorldTester.__init__`
(real_world_tester.py lines 71-78). -/
structure SessionStats where
  total_episodes : ℕ
  successful_episodes : ℕ
  failed_episodes : ℕ
  safe_episodes : ℕ
  overflow_episodes : ℕ
  underflow_episodes : ℕ
deriving DecidableEq

/-- All six counters start at zero (real_world_tester.py lines 71-78). -/
def initialSessionStats : SessionStats :=
  { total_episodes := 0, successful_episodes := 0, failed_episodes := 0,
    safe_episodes := 0, overflow_episodes := 0, underflow_episodes := 0 }

/-- `RealWorldTester._update_session_stats` (real_world_tester.py lines 169-179):
increments `total_episodes` and `successful_episodes`, then exactly one of
`overflow_episodes` (`overflow_amount > 0`), `underflow_episodes`
(`elif underflow_amount > 0`) or `safe_episodes` (`else`). -/
def updateSessionStats (s : SessionStats) (overflow_amount underflow_amount : ℚ) :
    SessionStats :=
  let s1 := { s with total_episodes := s.total_episodes + 1,
                     successful_episodes := s.successful_episodes + 1 }
  if 0 < overflow_amount then
    { s1 with overflow_episodes := s1.overflow_episodes + 1 }
  else if 0 < underflow_amount then
    { s1 with underflow_episodes := s1.underflow_episodes + 1 }
  else
    { s1 with safe_episodes := s1.safe_episodes + 1 }

/- ### The awaiting-telemetry loop (real_world_tester.py lines 121-129) -/

/-- Control flow of one iteration of the `while True` receive loop: Python
`continue` (retry) or `break` (transcript accepted). -/
inductive LoopControl where
  | cont
  | brk
deriving DecidableEq

/-- One iteration of the `while True` loop in `run_episode`
(real_world_tester.py lines 121-129), as a function of the raw-data value the
iteration sees (the shipped code assigns a fixed constant; the commented-out
alternative at line 122 reads the UDP client, whose timeout yields a falsy
value, embedded as the empty string).  On falsy data (`if not raw_data:`) the
body logs an error and executes `continue`; the `failed_episodes` increment on
that path is commented out at line 127, so the statistics are returned
unchanged.  On truthy data (`if raw_data:`) the body executes `break`. -/
def awaitTelemetryStep (raw_data : String) (s : SessionStats) :
    LoopControl × SessionStats :=
  if raw_data = "" then (LoopControl.cont, s) else (LoopControl.brk, s)

/-- Iterating the receive loop at most a given number of times: `some` when the
loop has exited with a transcript within the allotted iterations, `none` when
every allotted iteration executed `continue` (the loop is still running;
nothing in the loop escalates to a terminating state). -/
def awaitTelemetryIter (raw_data : String) : ℕ → SessionStats → Option SessionStats
  | 0, _ => none
  | n + 1, s =>
    match awaitTelemetryStep raw_data s with
    | (LoopControl.brk, t) => some t
    | (LoopControl.cont, t) => awaitTelemetryIter raw_data n t

/-- The in-code constant assigned to `raw_data` each iteration of the receive
loop (real_world_tester.py line 123), verbatim. -/
def RAW_DATA_CONSTANT : String :=
  "1,    1;-   598,80955;-   611,    1;-   640,    2;-   667,    2;-   667,    0;-   644,    2;-   629,    1;-   598,    3;-   578,    2;-   581,    0;-   581,    0;-   581,    0;-   581,    0;-   581,    0;-   581,    0;-   581,    0;-   594,    1;-   594,    0;-   607,    1;-   612,    0;-   619,    0;-   645,    2;-   671,    2;-   676,    0;-   673,    0;-   673,    0;-   679,    0;-   701,    2;-   717,    1;-   726,    0;-   862,   13;-   929,    6;-  1009,    8;-  1024,    1;-  1060,    3;-  1085,    2;-  1204,   11;-  1204,    0;-  1204,    0;-  1204,    0;-  1204,    0;-  1204,    0;-  1172,    3;-  1058,   11;-   554,   50;   259,   81;  1670,  141;  3262,  159;  5176,  191;  7209,  203;  9579,  237; 12350,  277; 15614,  326; 19307,  369; 23252,  394; 27419,  416; 31600,  418; 35996,  439; 40501,  450; 45333,  483; 50211,  487; 55019,  480; 59487,  446; 63623,  413; 67573,  395; 71467,  389; 75494,  402; 79404,  391; 83198,  379; 86602,  340; 89816,  321; 92988,  317; 96442,  345;100245,  380;104166,  392;107921,  375;111252,  333;114418,  316;117665,  324;121343,  367;125348,  400;129424,  407;133151,  372;136508,  335;139727,  321;143143,  341;147048,  390;151116,  406;155045,  392;158450,  340;161470,  302;164519,  304;168019,  350;172052,  403;176263,  421;180271,  400;183713,  344;186858,  314;190141,  328;193823,  368;197901,  407;201948,  404;205560,  361;208780,  322;212001,  322;215717,  371;219993,  427;224475,  448;228629,  415;232190,  356;235418,  322;238739,  332;242564,  382;246714,  415;250869,  415;254796,  392;258477,  368;262264,  378;266308,  404;270555,  424;274658,  410;278441,  378;281989,  354;285583,  359;289494,  391;293559,  406;297577,  401;301309,  373;304931,  362;308729,  379;312813,  408;317088,  427;321111,  402;324738,  362;328026,  328;331496,  347;335477,  398;339889,  441;344478,  458;348586,  410;352182,  359;355576,  339;359150,  357;363188,  403;367373,  418;371372,  399;374939,  356;378310,  337;381948,  363;386018,  407;390483,  446;394801,  431;398700,  389;402177,  347;405466,  328;409104,  363;413187,  408;417642,  445;422136,  449;426467,  433;430637,  417;434649,  401;438719,  407;442716,  399;446626,  391;450497,  387;454306,  380;458265,  395;462209,  394;    30,   30;462209,44376;466032,  382;469669,  363;473096,  342;476636,  354;480433,  379;484633,  420;489029,  439;493320,  429;497399,  407;501208,  380;505123,  391;509247,  412;513553,  430;517888,  433;521779,  389;525360,  358;528932,  357;532891,  395;537573,  468;542530,  495;547380,  485;551458,  407;554744,  328;557825,  308;561078,  325;565282,  420;570170,  488;575336,  516;580292,  495;584499,  420;588413,  391;592134,  372;596025,  389;600219,  419;604280,  406;608330,  405;611921,  359;615125,  320;617890,  276;620028,  213;622080,  205;623711,  163;625154,  144;626290,  113;626868,   57;627336,   46;627534,   19;627534,    0;627534,    0;627534,    0;627534,    0;627534,    0;626783,   75;626691,    9;626691,    0;626691,    0;626691,    0;626691,    0;626806,   11;626807,    0;626830,    2;626989,   15;627572,   58;628466,   89;629388,   92;630247,   85;630785,   53;631162,   37;631509,   34;631941,   43;632676,   73;633568,   89;634574,  100;635511,   93;636218,   70;636775,   55;637161,   38;637599,   43;638198,   59;638945,   74;639794,   84;640472,   67;640909,   43;641107,   19;641278,   17;641710,   43;642426,   71;643362,   93;644155,   79;644568,   41;644610,    4;644649,    3;644750,   10;645345,   59;646276,   93;647307,  103;648082,   77;648551,   46;648829,   27;649192,   36;649881,   68;650841,   96;651925,  108;652875,   95;653563,   68;654081,   51;654528,   44;655112,   58;655940,   82;656895,   95;657840,   94;658582,   74;659009,   42;659244,   23;659503,   25;660016,   51;660822,   80;661755,   93;662596,   84;663109,   51;663358,   24;663574,   21;664008,   43;664836,   82;665880,  104;666888,  100;667609,   72;667939,   33;668120,   18;668419,   29;669025,   60;669912,   88;670864,   95;671671,   80;672220,   54;672639,   41;673083,   44;673665,   58;674390,   72;675097,   70;675641,   54;675965,   32;676164,   19;676422,   25;676921,   49;677637,   71;678405,   76;679102,   69;679555,   45;679837,   28;680105,   26;680445,   34;680983,   53;681662,   67;682366,   70;682983,   61;683439,   45;683810,   37;684190,   38;684721,   53;685424,   70;686216,   79;686992,   77;687583,   59;688028,   44;688409,   38;688816,   40;689404,   58;690056,   65;690653,   59;691125,   47;691382,   25;691574,   19;691836,   26;692250,   41;692859,   60;693518,   65;694119,   60;694603,   48;694954,   35;695250,   29;695564,   31;695955,   39;696422,   46;696966,   54;697558,   59;698112,   55;698644,   53;699141,   49;699608,   46;700113,   50;700613,   50;701119,   50;701641,   52;702149,   50;702726,   57;703382,   65;704085,   70;704813,   72;705463,   65;706010,   54;706495,   48;706998,   50;707636,   63;708386,   75;709171,   78;709807,   63;710178,   37;710352,   17;710465,   11;710765,   30;711340,   57;712097,   75;712908,   81;713550,   64;714008,   45;714400,   39;714851,   45;715500,   64;716272,   77;717020,   74;717639,   61;718102,   46;718552,   45;719095,   54;719772,   67;720513,   74;721174,   66;721698,   52;722093,   39;722475,   38;722956,   48;723541,   58;724183,   64;724752,   56;725207,   45;725649,   44;726138,   48;726749,   61;727478,   72;728151,   67;728696,   54;729087,   39;729342,   25;729649,   30;730100,   45;730728,   62;731490,   76;732198,   70;732768,   57;733154,   38;733401,   24;   300,  300;778273, 750000;  25,  603;"

/-- `raw_data` as computed by `run_episode` as a function of what the UDP
collaborator would have delivered (`UDPClient.receive_data`, tcp_client.py
lines 138-156, returns `Optional[str]`): the receive call at line 122 of
real_world_tester.py is commented out, so the argument is never consulted and
the result is the in-code constant. -/
def runEpisodeRawData (_udpReceived : Option String) : String :=
  RAW_DATA_CONSTANT

/- ### One run of `run_episode` as seen by the statistics
(real_world_tester.py lines 134-159) -/

/-- Outcome of the two fallible external processing steps inside `run_episode`:
`parse_raw_data` returning a falsy value (line 135), `create_filling_session`
returning a falsy value (line 142), or success with the parsed
`overflow_amount` and `underflow_amount` fields consumed by
`_update_session_stats`. -/
inductive EpisodeOutcome where
  | parseFailed
  | sessionFailed
  | success (overflow_amount underflow_amount : ℚ)
deriving DecidableEq

/-- Effect of one `run_episode` call on `session_stats`
(real_world_tester.py lines 134-159): a parse failure increments
`failed_episodes` and returns (line 137), a session-build failure increments
`failed_episodes` and returns (line 144), and a success reaches
`_update_session_stats` (line 159). -/
def runEpisodeStats (o : EpisodeOutcome) (s : SessionStats) : SessionStats :=
  match o with
  | EpisodeOutcome.parseFailed => { s with failed_episodes := s.failed_episodes + 1 }
  | EpisodeOutcome.sessionFailed => { s with failed_episodes := s.failed_episodes + 1 }
  | EpisodeOutcome.success ov uf => updateSessionStats s ov uf

/-- Session statistics after a sequence of `run_episode` calls. -/
def runSessionStats (outcomes : List EpisodeOutcome) (s : SessionStats) : SessionStats :=
  outcomes.foldl (fun t o => runEpisodeStats o t) s

/-- Whether a `run_episode` outcome reaches `_update_session_stats`. -/
def isSuccessOutcome : EpisodeOutcome → Bool
  | EpisodeOutcome.success _ _ => true
  | _ => false

/- ### Termination classification (real_world_tester.py lines 249-256) -/

/-- The termination-type string computed in `run_agent_testing`
(real_world_tester.py lines 251-256) from the episode's final weight, with the
default safe band and quantization step (the `RewardCalculator` attributes it
reads default to the config constants). -/
def terminationType (final_weight : ℤ) : String :=
  if final_weight < DEFAULT_SAFE_WEIGHT_MIN * DEFAULT_WEIGHT_QUANTIZATION_STEP then
    "underweight"
  else if DEFAULT_SAFE_WEIGHT_MAX * DEFAULT_WEIGHT_QUANTIZATION_STEP < final_weight then
    "overweight"
  else
    "safe"

/- ### The experienced switching point (real_world_tester.py line 244) -/

/-- Python `list.index(x)`: position of the first occurrence, `none` when `x`
is absent (Python raises `ValueError`). -/
def pyListIndex (l : List ℤ) (x : ℤ) : Option ℕ :=
  l.findIdx? (· == x)

/-- Python `l[i]` on a list, with negative-index wraparound; `none` when the
index is out of range (Python raises `IndexError`). -/
def pyGetItem (l : List ℤ) (i : ℤ) : Option ℤ :=
  if 0 ≤ i then l.get? i.toNat
  else if (-i).toNat ≤ l.length then l.get? (l.length - (-i).toNat)
  else none

/-- The experienced switching point computed in `run_agent_testing`
(real_world_tester.py line 244):
`weight_sequence[weight_sequence.index(-1) - 1]`, with `-1` the
phase-transition marker sentinel in the parsed weight sequence. -/
def currentSwitchPoint (weight_sequence : List ℤ) : Option ℤ :=
  match pyListIndex weight_sequence (-1) with
  | none => none
  | some idx => pyGetItem weight_sequence ((idx : ℤ) - 1)

/- ### Excel report colouring (file_handler.py lines 85-92) -/

/-- The three `PatternFill` styles that the Result-row colouring can pick
(file_handler.py lines 45-47). -/
inductive ResultCellFill where
  | green
  | yellow
  | red
deriving DecidableEq

/-- The fill chosen for the Result label/value cells in
`FileHandler.write_qvalue_updates_to_excel` (file_handler.py lines 87-92):
`{"Normal": green_fill, "Underflow": yellow_fill, "Overflow": red_fill}`
looked up with `.get(value, green_fill)`, so any other string falls back to
green. -/
def resultFill (value : String) : ResultCellFill :=
  if value = "Normal" then ResultCellFill.green
  else if value = "Underflow" then ResultCellFill.yellow
  else if value = "Overflow" then ResultCellFill.red
  else ResultCellFill.green

/- ### `run_manual_testing` (real_world_tester.py lines 318-356) -/

/-- Python call error raised before a function body runs. -/
inductive PyCallError where
  | typeError
deriving DecidableEq

/-- The call `self.run_episode(switching_point)` at real_world_tester.py
line 339: `run_episode` (line 102) is declared with no parameter besides
`self`, so Python raises `TypeError` at the call site, before any episode
processing runs.  The payload type of a successful return is irrelevant (no
call ever succeeds) and is embedded as `Unit`. -/
def runEpisodeCallWithArg (_switching_point : ℚ) : Except PyCallError (Option Unit) :=
  Except.error PyCallError.typeError

/-- The `for` loop of `run_manual_testing` (real_world_tester.py lines
335-346) inside its `try`: each iteration calls `run_episode(switching_point)`
and appends the episode when the result is truthy; an exception aborts the
loop carrying the episodes accumulated so far. -/
def runManualLoop : List ℚ → List Unit → Except (PyCallError × List Unit) (List Unit)
  | [], episodes => Except.ok episodes
  | sp :: rest, episodes =>
    match runEpisodeCallWithArg sp with
    | Except.error e => Except.error (e, episodes)
    | Except.ok (some ep) => runManualLoop rest (episodes ++ [ep])
    | Except.ok none => runManualLoop rest episodes

/-- `RealWorldTester.run_manual_testing` (real_world_tester.py lines 318-356):
returns `[]` when `connect_devices` fails (line 330); otherwise runs the
episode loop, catches any exception (`except Exception` at line 350), and
returns the accumulated `episodes` list. -/
def run_manual_testing (connected : Bool) (switching_points : List ℚ) : List Unit :=
  if connected then
    match runManualLoop switching_points [] with
    | Except.ok episodes => episodes
    | Except.error (_, episodes) => episodes
  else []

/- ### Definitions modelled from the spec (modules absent from the sources) -/

/-- Modelled from the spec: the termination class assigned by
`RealDataProcessor.create_filling_session` (real_data_processor.py is not
among the sources); spec section 4.2: `finalWeight < min*step` is Underflow,
`finalWeight > max*step` is Overflow, otherwise Safe. -/
inductive TerminationClass where
  | Safe
  | Overflow
  | Underflow
deriving DecidableEq

/-- Modelled from the spec: section 4.2, `overflowAmount = finalWeight -
max*step` when `finalWeight > max*step`, zero otherwise
(real_data_processor.py is not among the sources). -/
def overflowAmountOf (final_weight : ℤ) : ℤ :=
  if realToleranceMax < final_weight then final_weight - realToleranceMax else 0

/-- Modelled from the spec: section 4.2, `underflowAmount = min*step -
finalWeight` when `finalWeight < min*step`, zero otherwise
(real_data_processor.py is not among the sources). -/
def underflowAmountOf (final_weight : ℤ) : ℤ :=
  if final_weight < realToleranceMin then realToleranceMin - final_weight else 0

/-- Modelled from the spec: section 4.2 classification rule
(real_data_processor.py is not among the sources). -/
def classifyFinalWeight (final_weight : ℤ) : TerminationClass :=
  if final_weight < realToleranceMin then TerminationClass.Underflow
  else if realToleranceMax < final_weight then TerminationClass.Overflow
  else TerminationClass.Safe

/-- Modelled from the spec: the Overflow branch of
`RewardCalculator.calculate_reward` (reward_calculator.py is not among the
sources); spec section 4.3: `reward = overflowPenaltyConstant *
overflowAmount`. -/
def overflowReward (amount : ℚ) : ℚ :=
  DEFAULT_OVERFLOW_PENALTY_CONSTANT * amount

/-- Modelled from the spec: the Underflow branch of
`RewardCalculator.calculate_reward` (reward_calculator.py is not among the
sources); spec section 4.3: `reward = underflowPenaltyConstant *
underflowAmount`. -/
def underflowReward (amount : ℚ) : ℚ :=
  DEFAULT_UNDERFLOW_PENALTY_CONSTANT * amount

/-- Modelled from the spec: the Safe branch of the reward (spec section 4.3:
non-negative, maximal at the band centre, decreasing toward the edges);
embedded as half the band width minus the distance to the band centre. -/
def safeReward (final_weight : ℤ) : ℚ :=
  ((realToleranceMax - realToleranceMin : ℤ) : ℚ) / 2 -
    |(final_weight : ℚ) - ((realToleranceMin + realToleranceMax : ℤ) : ℚ) / 2|

/-- Modelled from the spec: `RewardCalculator.calculate_reward` with
`method="standard"` (reward_calculator.py is not among the sources),
assembled from the per-class branches of spec section 4.3. -/
def rewardStandard (final_weight : ℤ) : ℚ :=
  match classifyFinalWeight final_weight with
  | TerminationClass.Overflow => overflowReward ((overflowAmountOf final_weight : ℤ) : ℚ)
  | TerminationClass.Underflow => underflowReward ((underflowAmountOf final_weight : ℤ) : ℚ)
  | TerminationClass.Safe => safeReward final_weight

/- ### Helper lemmas about the statistics step -/

lemma runEpisodeStats_total (o : EpisodeOutcome) (s : SessionStats) :
    (runEpisodeStats o s).total_episodes
      = s.total_episodes + (if isSuccessOutcome o then 1 else 0) := by
  cases o <;> simp [runEpisodeStats, updateSessionStats, isSuccessOutcome]
  split_ifs <;> rfl

lemma runEpisodeStats_successful (o : EpisodeOutcome) (s : SessionStats) :
    (runEpisodeStats o s).successful_episodes
      = s.successful_episodes + (if isSuccessOutcome o then 1 else 0) := by
  cases o <;> simp [runEpisodeStats, updateSessionStats, isSuccessOutcome]
  split_ifs <;> rfl

lemma runEpisodeStats_failed (o : EpisodeOutcome) (s : SessionStats) :
    (runEpisodeStats o s).failed_episodes
      = s.failed_episodes + (if isSuccessOutcome o then 0 else 1) := by
  cases o <;> simp [runEpisodeStats, updateSessionStats, isSuccessOutcome]
  split_ifs <;> rfl

lemma runEpisodeStats_class_sum (o : EpisodeOutcome) (s : SessionStats) :
    (runEpisodeStats o s).safe_episodes + (runEpisodeStats o s).overflow_episodes
        + (runEpisodeStats o s).underflow_episodes
      = s.safe_episodes + s.overflow_episodes + s.underflow_episodes
        + (if isSuccessOutcome o then 1 else 0) := by
  cases o <;> simp [runEpisodeStats, updateSessionStats, isSuccessOutcome]
  split_ifs <;> simp <;> omega

lemma runSessionStats_fields (outcomes : List EpisodeOutcome) :
    ∀ s : SessionStats,
      (runSessionStats outcomes s).total_episodes
        = s.total_episodes + outcomes.countP isSuccessOutcome ∧
      (runSessionStats outcomes s).successful_episodes
        = s.successful_episodes + outcomes.countP isSuccessOutcome ∧
      (runSessionStats outcomes s).failed_episodes
        = s.failed_episodes + outcomes.countP (fun o => !(isSuccessOutcome o)) ∧
      (runSessionStats outcomes s).safe_episodes
          + (runSessionStats outcomes s).overflow_episodes
          + (runSessionStats outcomes s).underflow_episodes
        = s.safe_episodes + s.overflow_episodes + s.underflow_episodes
          + outcomes.countP isSuccessOutcome := by
  induction outcomes with
  | nil => intro s; simp [runSessionStats]
  | cons o rest ih =>
    intro s
    obtain ⟨h1, h2, h3, h4⟩ := ih (runEpisodeStats o s)
    simp only [runSessionStats, List.foldl_cons] at h1 h2 h3 h4 ⊢
    rw [List.countP_cons, List.countP_cons]
    rw [h1, h2, h3, h4, runEpisodeStats_total, runEpisodeStats_successful,
      runEpisodeStats_failed, runEpisodeStats_class_sum]
    cases hso : isSuccessOutcome o <;> simp [hso] <;> omega

/- ### Claims -/

/-- Claim C1, counterexample: an iteration of the receive loop in which no
telemetry arrived (falsy `raw_data`) leaves every session-statistics counter
unchanged — zero counters are incremented, not exactly one — because the
`failed_episodes` increment on that path is commented out; the loop merely
retries. -/
theorem c1_timeout_failure_counts_nothing :
    awaitTelemetryStep "" initialSessionStats
      = (LoopControl.cont, initialSessionStats) := rfl

/-- Claim C1 (amended): the parse-failure and session-build-failure paths of
`run_episode` each increment exactly one session-statistics counter
(`failed_episodes`), leaving every other counter unchanged; no such failure
is dropped uncounted.  (The no-telemetry path increments no counter: its
increment is commented out and the loop retries instead.) -/
theorem c1_parse_session_failures_counted_once (o : EpisodeOutcome)
    (s : SessionStats)
    (h : o = EpisodeOutcome.parseFailed ∨ o = EpisodeOutcome.sessionFailed) :
    runEpisodeStats o s = { s with failed_episodes := s.failed_episodes + 1 } := by
  rcases h with rfl | rfl <;> rfl

/-- Claim C1 witness: the amended statement at the parse-failure outcome and
the initial statistics. -/
theorem c1_parse_session_failures_counted_once_witness :
    (EpisodeOutcome.parseFailed = EpisodeOutcome.parseFailed ∨
      EpisodeOutcome.parseFailed = EpisodeOutcome.sessionFailed) ∧
    runEpisodeStats EpisodeOutcome.parseFailed initialSessionStats
      = { initialSessionStats with
            failed_episodes := initialSessionStats.failed_episodes + 1 } :=
  ⟨Or.inl rfl,
    c1_parse_session_failures_counted_once EpisodeOutcome.parseFailed
      initialSessionStats (Or.inl rfl)⟩

/-- Claim C2: when no telemetry arrives (falsy `raw_data` on every poll), the
receive loop of `run_episode` never exits within any number of iterations —
the retry is unbounded, and no iteration escalates to a terminating state or
records a connectivity failure (the statistics are passed through
unchanged). -/
theorem c2_timeout_retries_unbounded (n : ℕ) (s : SessionStats) :
    awaitTelemetryIter "" n s = none := by
  induction n generalizing s with
  | zero => rfl
  | succ n ih => simpa [awaitTelemetryIter, awaitTelemetryStep] using ih s

/-- Claim C5: the transcript `run_episode` parses does not depend on the UDP
collaborator: whatever `UDPClient.receive_data` would have returned, the raw
data is the fixed in-code constant (the receive call is commented out and
never consulted), and the constant is truthy, so the receive loop accepts it
on its first iteration. -/
theorem c5_transcript_independent_of_udp :
    (∀ d1 d2 : Option String, runEpisodeRawData d1 = runEpisodeRawData d2) ∧
    (∀ d : Option String, runEpisodeRawData d = RAW_DATA_CONSTANT) ∧
    (∀ s : SessionStats,
      awaitTelemetryStep RAW_DATA_CONSTANT s = (LoopControl.brk, s)) := by
  refine ⟨fun _ _ => rfl, fun _ => rfl, fun s => ?_⟩
  have h : ¬ (RAW_DATA_CONSTANT = "") := by decide
  simp [awaitTelemetryStep, h]

/-- Claim C9: starting from the all-zero counters, after every sequence of
`run_episode` calls `total_episodes = successful_episodes`,
`successful_episodes = safe_episodes + overflow_episodes +
underflow_episodes`, `total_episodes` counts exactly the successful episodes
(failed episodes never contribute to it), and `failed_episodes` counts
exactly the failed episodes. -/
theorem c9_session_stats_invariant (outcomes : List EpisodeOutcome) :
    (runSessionStats outcomes initialSessionStats).total_episodes
      = (runSessionStats outcomes initialSessionStats).successful_episodes ∧
    (runSessionStats outcomes initialSessionStats).successful_episodes
      = (runSessionStats outcomes initialSessionStats).safe_episodes
        + (runSessionStats outcomes initialSessionStats).overflow_episodes
        + (runSessionStats outcomes initialSessionStats).underflow_episodes ∧
    (runSessionStats outcomes initialSessionStats).total_episodes
      = outcomes.countP isSuccessOutcome ∧
    (runSessionStats outcomes initialSessionStats).failed_episodes
      = outcomes.countP (fun o => !(isSuccessOutcome o)) := by
  obtain ⟨h1, h2, h3, h4⟩ := runSessionStats_fields outcomes initialSessionStats
  simp only [initialSessionStats] at h1 h2 h3 h4 ⊢
  omega

/-- Claim C3: under the default configuration the scaled band is
`[740000, 760000]`; a final weight of `778273` is classified `"overweight"` by
`run_agent_testing` and `Overflow` by the spec-modelled segmenter, with
overflow amount `778273 - 760000 = 18273`, and the spec-modelled standard
reward equals the overflow penalty constant times the overflow amount and is
strictly negative. -/
theorem c3_overflow_scenario :
    realToleranceMin = 740000 ∧ realToleranceMax = 760000 ∧
    terminationType 778273 = "overweight" ∧
    classifyFinalWeight 778273 = TerminationClass.Overflow ∧
    overflowAmountOf 778273 = 18273 ∧
    rewardStandard 778273 = DEFAULT_OVERFLOW_PENALTY_CONSTANT * 18273 ∧
    rewardStandard 778273 < 0 := by
  have hclass : classifyFinalWeight 778273 = TerminationClass.Overflow := by decide
  have hamt : overflowAmountOf 778273 = 18273 := by decide
  have hreward : rewardStandard 778273 = DEFAULT_OVERFLOW_PENALTY_CONSTANT * 18273 := by
    simp only [rewardStandard, hclass, hamt, overflowReward]
    norm_num
  refine ⟨rfl, rfl, by decide, hclass, hamt, hreward, ?_⟩
  rw [hreward]
  norm_num [DEFAULT_OVERFLOW_PENALTY_CONSTANT]

/-- Claim C4: the experienced switching point computed at
real_world_tester.py line 244 is the element of `weight_sequence` at the
position immediately preceding the first occurrence of the marker
sentinel `-1`. -/
theorem c4_experienced_switching_point (weight_sequence : List ℤ) (i : ℕ)
    (hfind : pyListIndex weight_sequence (-1) = some i) (hpos : 1 ≤ i) :
    currentSwitchPoint weight_sequence = weight_sequence.get? (i - 1) := by
  simp only [currentSwitchPoint, hfind, pyGetItem]
  rw [if_pos (by omega : (0 : ℤ) ≤ (i : ℤ) - 1)]
  congr 1
  omega

/-- Claim C4 witness: on the sequence `[7, 3, -1, 9]` the marker sits at
position 2 and the experienced switching point is the element at position 1. -/
theorem c4_experienced_switching_point_witness :
    pyListIndex [7, 3, -1, 9] (-1) = some 2 ∧ 1 ≤ 2 ∧
    currentSwitchPoint [7, 3, -1, 9] = [7, 3, -1, 9].get? (2 - 1) :=
  ⟨by decide, by decide,
    c4_experienced_switching_point [7, 3, -1, 9] 2 (by decide) (by decide)⟩

/-- Claim C6: the Result cell of an agent-testing episode is coloured green
regardless of its termination class, because `run_agent_testing` writes the
strings `"safe"`, `"underweight"`, `"overweight"`, none of which is a key of
the colour mapping `{"Normal": green, "Underflow": yellow, "Overflow": red}`,
whose `.get` default is green.  In particular an Overflow episode (final
weight `778273`) gets green, not the red the mapping itself reserves for
`"Overflow"`. -/
theorem c6_overflow_episode_coloured_green :
    terminationType 778273 = "overweight" ∧
    resultFill (terminationType 778273) = ResultCellFill.green ∧
    resultFill "underweight" = ResultCellFill.green ∧
    resultFill "safe" = ResultCellFill.green ∧
    resultFill "Overflow" = ResultCellFill.red ∧
    resultFill "Underflow" = ResultCellFill.yellow ∧
    ResultCellFill.green ≠ ResultCellFill.red := by
  refine ⟨by decide, by decide, by decide, by decide, by decide, by decide, by decide⟩

/-- Claim C7: for every equal-magnitude positive deviation the overflow
reward is strictly more negative than the underflow reward, and the default
overflow penalty constant has strictly greater absolute value than the
default underflow penalty constant. -/
theorem c7_overflow_penalty_dominates (d : ℚ) (h : 0 < d) :
    overflowReward d < underflowReward d ∧
    |DEFAULT_OVERFLOW_PENALTY_CONSTANT| > |DEFAULT_UNDERFLOW_PENALTY_CONSTANT| := by
  constructor
  · have h370 : DEFAULT_OVERFLOW_PENALTY_CONSTANT < DEFAULT_UNDERFLOW_PENALTY_CONSTANT := by
      norm_num [DEFAULT_OVERFLOW_PENALTY_CONSTANT, DEFAULT_UNDERFLOW_PENALTY_CONSTANT]
    simpa [overflowReward, underflowReward] using mul_lt_mul_of_pos_right h370 h
  · norm_num [DEFAULT_OVERFLOW_PENALTY_CONSTANT, DEFAULT_UNDERFLOW_PENALTY_CONSTANT,
      abs_of_nonpos]

/-- Claim C7 witness: the asymmetry at deviation 1. -/
theorem c7_overflow_penalty_dominates_witness :
    (0 : ℚ) < 1 ∧
    (overflowReward 1 < underflowReward 1 ∧
      |DEFAULT_OVERFLOW_PENALTY_CONSTANT| > |DEFAULT_UNDERFLOW_PENALTY_CONSTANT|) :=
  ⟨by norm_num, c7_overflow_penalty_dominates 1 (by norm_num)⟩

/-- Claim C8: the configured exploration distribution is exactly the
categorical distribution over step distances 1..5 with probabilities
0.33, 0.27, 0.20, 0.13, 0.07; the probabilities sum exactly to 1 and are
strictly decreasing in step distance. -/
theorem c8_exploration_distribution :
    EXPLORATION_STEPS = [1, 2, 3, 4, 5] ∧
    EXPLORATION_PROBABILITIES = [0.33, 0.27, 0.20, 0.13, 0.07] ∧
    EXPLORATION_PROBABILITIES.sum = 1 ∧
    List.Chain' (fun p q => q < p) EXPLORATION_PROBABILITIES := by
  refine ⟨rfl, ?_, ?_, ?_⟩
  · norm_num [EXPLORATION_PROBABILITIES]
  · norm_num [EXPLORATION_PROBABILITIES, List.sum_cons, List.sum_nil]
  · norm_num [EXPLORATION_PROBABILITIES, List.chain'_cons, List.chain'_singleton]

/-- Claim C10: for every non-empty list of switching points,
`run_manual_testing` returns an empty episode list: the first loop iteration
calls `run_episode(switching_point)`, which raises `TypeError` (the method
takes no such argument); the surrounding handler catches it before any
episode is appended. -/
theorem c10_manual_testing_returns_empty (connected : Bool)
    (switching_points : List ℚ) (h : switching_points ≠ []) :
    run_manual_testing connected switching_points = [] := by
  cases switching_points with
  | nil => exact absurd rfl h
  | cons p rest =>
    cases connected <;>
      simp [run_manual_testing, runManualLoop, runEpisodeCallWithArg]

/-- Claim C10 witness: the single manual switching point 45 yields no
episodes. -/
theorem c10_manual_testing_returns_empty_witness :
    ([(45 : ℚ)] ≠ []) ∧ run_manual_testing true [(45 : ℚ)] = [] :=
  ⟨by decide, c10_manual_testing_returns_empty true [(45 : ℚ)] (by decide)⟩

end FillingMachine
